import Mathlib

/-!
Verification of the snapshot synchronization engine of `srmkv/calendar-montazh`
(file `src/unnamed/part_002`, second server region, lines 968-2609, which is the
version the specification describes).  JavaScript values that flow through the
modelled code are strings (Bitrix date/text fields); a field that may be absent
is an `Option String`.  Geocoding, user-display-name lookup and the manual /
comment CRUD stores are out of scope per the specification ("Out of scope:
... geocoding, user-display-name lookup, and on-disk JSON CRUD stores");
they are modelled as opaque environment inputs and their presentation-only
outputs (lat/lng, managerName, ...) are elided from the derived event, since
neither the digest, the patch applier, nor any claim reads them.
-/

namespace B24

/-- The whitespace class of JS `String.prototype.trim`, restricted to the
ASCII whitespace that occurs in the modelled data. -/
def isJsSpace (c : Char) : Bool :=
  c == ' ' || c == '\t' || c == '\n' || c == '\r'

/-- JS `s.trim()` (computable form: drop whitespace from both ends of the
character list). -/
def jsTrim (s : String) : String :=
  String.mk (((s.toList.dropWhile isJsSpace).reverse.dropWhile isJsSpace).reverse)

/-- JS `String(x).trim() === ''`-style truthiness used by `truthyDate`:
`truthyDate(v)` is false for `null`/`undefined` and strings that trim to
empty, true otherwise (part_002 line 1551). -/
def truthyDate : Option String → Bool
  | none => false
  | some s => !(jsTrim s == "")

/-- JS `x || null` on a string field: the empty string (the only falsy
string) collapses to `null`. -/
def orNull : Option String → Option String
  | none => none
  | some s => if s == "" then none else some s

/-- `firstNonEmpty(...vals)` (part_002 line 1538): first value that is not
`null`/`undefined` and not a string trimming to empty. -/
def firstNonEmpty : List (Option String) → Option String
  | [] => none
  | none :: rest => firstNonEmpty rest
  | some s :: rest => if jsTrim s == "" then firstNonEmpty rest else some s

/-- `joinArrayField` (part_002 line 1546) on an array-valued field:
drop falsy (empty-string) entries and join with newlines. -/
def joinArrayField (v : List String) : String :=
  String.intercalate "\n" (v.filter (fun x => !(x == "")))

/-- `^\d{4}-\d{2}-\d{2}$` on a char list (the regex of `isDateOnlyString`,
part_002 line 1556). -/
def dateOnlyChars : List Char → Bool
  | [a, b, c, d, e, f, g, h, i, j] =>
      a.isDigit && b.isDigit && c.isDigit && d.isDigit && e == '-' &&
      f.isDigit && g.isDigit && h == '-' && i.isDigit && j.isDigit
  | _ => false

/-- `isDateOnlyString` (part_002 line 1556): the trimmed string matches
`^\d{4}-\d{2}-\d{2}$`.  The modelled values are always strings, so the
JS `typeof` guard is implicit in the type. -/
def isDateOnlyString (v : String) : Bool :=
  dateOnlyChars (jsTrim v).toList

/-- `eventAllDayFromStart` (part_002 line 1559). -/
def eventAllDayFromStart (startVal : String) : Bool :=
  isDateOnlyString startVal

/-- JS `toLowerCase` restricted to the alphabets appearing in the data
(ASCII and Russian); other characters are untouched. -/
def jsLowerChar (c : Char) : Char :=
  if 'A' ≤ c && c ≤ 'Z' then Char.ofNat (c.toNat + 32)
  else if 'А' ≤ c && c ≤ 'Я' then Char.ofNat (c.toNat + 32)
  else if c == 'Ё' then 'ё'
  else c

/-- JS `s.toLowerCase()` under the restriction of `jsLowerChar`. -/
def jsToLower (s : String) : String :=
  String.mk (s.toList.map jsLowerChar)

/-- `pat` occurs in `s` as a contiguous run (char-list form). -/
def charsHasPrefix : List Char → List Char → Bool
  | [], _ => true
  | _ :: _, [] => false
  | a :: as, b :: bs => a == b && charsHasPrefix as bs

/-- JS `s.includes(pat)`. -/
def charsContains (s pat : List Char) : Bool :=
  match s with
  | [] => pat == []
  | _ :: rest => charsHasPrefix pat s || charsContains rest pat

/-- JS `s.includes(pat)` on strings. -/
def strContains (s pat : String) : Bool :=
  charsContains s.toList pat.toList

/-- `[a,b,c,d].filter(Boolean).join(' ')`: drop empty strings, join with a
single space. -/
def joinTruthy (xs : List String) : String :=
  String.intercalate " " (xs.filter (fun x => !(x == "")))

-- ===================== COLORS (part_002 lines 1624-1661) =====================

def COLOR_GRAY_DARK : String := "#111827"
def COLOR_BLUE : String := "#2563eb"
def COLOR_GREEN : String := "#16a34a"
def COLOR_PURPLE : String := "#7c3aed"
def COLOR_RED : String := "#ef4444"

/-- `detectPickup` (part_002 line 1631): lowercase the concatenation of
title, stone text and both comments and scan for the self-pickup keywords. -/
def detectPickup (title stoneText installComment extraComment : String) : Bool :=
  let t := jsToLower (joinTruthy [title, stoneText, installComment, extraComment])
  strContains t "самовывоз" ||
  strContains t "без монта" ||
  strContains t "безмонтаж" ||
  strContains t "без установки"

/-- Argument record of `pickColorByRules` (the JS destructured object). -/
structure ColorArgs where
  reclEver : Bool
  otkDate : Option String
  stoneTypeId : Option String
  title : String
  stoneText : String
  installComment : String
  extraComment : String
  deriving Repr, DecidableEq

/-- `pickColorByRules` (part_002 line 1641), decision cascade exactly as in
the source. -/
def pickColorByRules (a : ColorArgs) : String :=
  if a.reclEver then COLOR_RED
  else if !(truthyDate a.otkDate) then COLOR_GRAY_DARK
  else if detectPickup a.title a.stoneText a.installComment a.extraComment then COLOR_PURPLE
  else
    let sid := jsTrim (a.stoneTypeId.getD "")
    if sid == "8142" then COLOR_BLUE
    else if sid == "8144" || sid == "8270" || sid == "8146" || sid == "8272" then COLOR_GREEN
    else COLOR_BLUE

/-- `colorToSortKey` (part_002 line 1653). -/
def colorToSortKey (color : String) : Nat :=
  let c := jsToLower color
  if c == COLOR_GREEN then 0
  else if c == COLOR_BLUE || c == "#3b82f6" then 1
  else if c == COLOR_PURPLE then 2
  else if c == COLOR_RED then 3
  else if c == COLOR_GRAY_DARK || c == "#6b7280" then 4
  else 9

-- ===================== STAGES (part_002 lines 1097-1119) =====================

def STAGE_SUCCESS : String := "DT141_14:SUCCESS"
def STAGE_RECL_IN : String := "DT141_14:UC_9ALF9C"
def STAGE_RECL_WAIT : String := "DT141_14:UC_27ZEBX"

/-- `RECL_STAGES.has(stageId)` (part_002 line 1106). -/
def isReclStage (stageId : String) : Bool :=
  stageId == STAGE_RECL_IN || stageId == STAGE_RECL_WAIT

-- ===================== STONE TYPES (part_002 lines 1467-1479) =====================

/-- `STONE_TYPE_MAP` (part_002 line 1467). -/
def STONE_TYPE_MAP (s : String) : Option String :=
  if s == "8142" then some "Акрил"
  else if s == "8144" then some "Кварц"
  else if s == "8146" then some "Натуралка"
  else if s == "8270" then some "Керамика"
  else if s == "8272" then some "Кварц+Акрил"
  else none

/-- `stoneTypeToText` (part_002 line 1474). -/
def stoneTypeToText (v : Option String) : String :=
  match v with
  | none => ""
  | some v0 =>
    let s := jsTrim v0
    if s == "" then "" else (STONE_TYPE_MAP s).getD s

-- ===================== RAW CRM ITEMS =====================

/-- A raw Bitrix smart-process item, restricted to the fields the modelled
code reads.  Field names follow the bindings in `mapItemsToEvents`
(part_002 lines 1900-2065); the `ufCrm8_...` ids are noted alongside. -/
structure RawItem where
  id : Nat
  stageId : Option String := none
  /-- `ufCrm8_1747916236564` -/
  transferToShop : Option String := none
  /-- `ufCrm8_1744626911134` -/
  plannedInstall : Option String := none
  /-- `ufCrm8_1747908559319` -/
  assignedInstall : Option String := none
  /-- `ufCrm8_1758806212646` -/
  sysAssignedInstall : Option String := none
  /-- `ufCrm8_1744639197488` -/
  installDone : Option String := none
  /-- `ufCrm8_1747306212023` -/
  otkDate : Option String := none
  /-- `ufCrm8_1758702287777` -/
  orderNumber : Option String := none
  /-- `ufCrm8_1758702046420` -/
  customerName : Option String := none
  /-- `ufCrm8_1744626408052` -/
  phone1 : Option String := none
  /-- `ufCrm8_1758702057969` -/
  phone2 : Option String := none
  /-- `ufCrm8_1732097971828` (multi-valued text field) -/
  installCommentRaw : List String := []
  /-- `ufCrm8_1744638484827` (multi-valued text field) -/
  extraCommentRaw : List String := []
  /-- `ufCrm8_1731616262` (read with `?? null`, so `""` is kept) -/
  stoneTypeId : Option String := none
  /-- `ufCrm8_1759661234` -/
  materialCode : Option String := none
  /-- `ufCrm8_1748001850227` -/
  thickness : Option String := none
  /-- `ufCrm8GoogleCalendarEvent` -/
  googleEventId : Option String := none
  deriving Repr, DecidableEq

-- ===================== DERIVED EVENTS =====================

/-- A FullCalendar event object as built by `mapItemsToEvents`
(part_002 lines 2008-2061), with `extendedProps` flattened into the
structure.  Presentation-only fields fed by the out-of-scope geocoding and
user-name collaborators (`address`, `rawAddress`, `lat`, `lng`,
`managerId/Name`, `installersIds/Names`) are elided: no modelled function
and no claim reads them. -/
structure FcEvent where
  id : String := ""
  title : String := ""
  start : String := ""
  allDay : Bool := false
  backgroundColor : String := ""
  borderColor : String := ""
  -- extendedProps:
  color : String := ""
  sortKey : Nat := 9
  done : Bool := false
  isDone : Bool := false
  stageId : String := ""
  transferToShop : Option String := none
  otkDate : Option String := none
  plannedInstall : Option String := none
  assignedInstall : Option String := none
  sysAssignedInstall : Option String := none
  assignedAny : Option String := none
  installDone : Option String := none
  orderNumber : String := ""
  customerName : String := ""
  phone : String := ""
  installComment : String := ""
  extraComment : String := ""
  stoneTypeId : Option String := none
  stoneText : String := ""
  materialCode : String := ""
  stoneCode : String := ""
  thickness : String := ""
  googleEventId : Option String := none
  freeComment : String := ""
  hideMarker : Bool := false
  deriving Repr, DecidableEq

-- ===================== STORES / ENVIRONMENT =====================

/-- One entry of `reclSeenStore`: `{at, stageId}` (part_002 line 1913);
the `at` field is called `seenAt` here because `at` is reserved in Lean. -/
structure ReclEntry where
  seenAt : String
  stageId : String
  deriving Repr, DecidableEq

/-- `reclSeenStore`, a JS object keyed by the record id string, modelled
as an association list (keys are inserted at most once). -/
abbrev ReclStore := List (String × ReclEntry)

/-- `!!reclSeenStore[idStr]`. -/
def reclSeen (store : ReclStore) (idStr : String) : Bool :=
  (store.lookup idStr).isSome

/-- Read-only collaborators of one derivation pass: the operator `doneStore`
(`!!doneStore[idStr]`), the free-comment CRUD store (out-of-scope
collaborator, defaulting to `""`), and the manually entered events
(`manualStore` filtered through `manualToFcEvent`, an out-of-scope CRUD
store, supplied here already in event form). -/
structure Env where
  doneStore : String → Bool
  comments : String → String
  manualEvents : List FcEvent

/-- Skip counters of `mapItemsToEvents` (part_002 line 1902). -/
structure Skipped where
  noTransferToShop : Nat := 0
  noStartDate : Nat := 0
  noPlannedNoAssigned : Nat := 0
  deriving Repr, DecidableEq

-- ===================== MAP ITEMS -> EVENTS (part_002 lines 1900-2065) =====================

/-- Result of the per-item section of the `mapItemsToEvents` loop body
after the reclamation-flag bookkeeping: either a derived event or one of
the three skip reasons. -/
inductive MapOne where
  | ev (e : FcEvent)
  | skipNoTransfer
  | skipNoPlannedNoAssigned
  | skipNoStart
  deriving Repr, DecidableEq

/-- The event object pushed by `mapItemsToEvents` for one item
(part_002 lines 1937-2061) once the start date `dv` has been selected.
Every field expression is translated from the corresponding source
statement. -/
def buildEvent (env : Env) (isReclEver : Bool) (item : RawItem) (dv : String) : FcEvent :=
  let idStr := toString item.id
  let stageId := jsTrim (item.stageId.getD "")
  let transferToShop := orNull item.transferToShop
  let plannedInstall := orNull item.plannedInstall
  let assignedInstall := orNull item.assignedInstall
  let sysAssignedInstall := orNull item.sysAssignedInstall
  let installDone := orNull item.installDone
  let assignedAny := firstNonEmpty [assignedInstall, sysAssignedInstall]
  let sysDone := stageId == STAGE_SUCCESS
  -- 4) system done => точку скрыть
  let hideMarker := sysDone
  let orderNumber := jsTrim (item.orderNumber.getD "")
  let customerName := jsTrim (item.customerName.getD "")
  let pfx := if !(orderNumber == "") then orderNumber else toString item.id
  let title := if !(customerName == "") then pfx ++ " — " ++ customerName else pfx
  let phone := (firstNonEmpty [item.phone1, item.phone2]).getD ""
  let installComment := joinArrayField item.installCommentRaw
  let extraComment := joinArrayField item.extraCommentRaw
  let stoneTypeId := item.stoneTypeId
  let stoneTextFromId := stoneTypeToText stoneTypeId
  let materialCode := jsTrim (item.materialCode.getD "")
  let stoneText := jsTrim (if !(stoneTextFromId == "") then stoneTextFromId else materialCode)
  let thickness := jsTrim (item.thickness.getD "")
  let otkDate := orNull item.otkDate
  -- 3) цвет: если нет otkDate => серый, иначе по правилам; рекламация => красный
  let color := pickColorByRules
    { reclEver := isReclEver, otkDate := otkDate, stoneTypeId := stoneTypeId,
      title := title, stoneText := stoneText,
      installComment := installComment, extraComment := extraComment }
  let sortKey := colorToSortKey color
  let freeComment := env.comments idStr
  let googleEventId :=
    let g := jsTrim (item.googleEventId.getD "")
    if g == "" then none else some g
  let done := if sysDone then true else (if isReclEver then false else env.doneStore idStr)
  { id := idStr
    title := title
    start := dv
    allDay := eventAllDayFromStart dv
    backgroundColor := color
    borderColor := color
    color := color
    sortKey := sortKey
    done := done
    isDone := sysDone
    stageId := stageId
    transferToShop := transferToShop
    otkDate := otkDate
    plannedInstall := plannedInstall
    assignedInstall := assignedInstall
    sysAssignedInstall := sysAssignedInstall
    assignedAny := assignedAny
    installDone := installDone
    orderNumber := orderNumber
    customerName := customerName
    phone := phone
    installComment := installComment
    extraComment := extraComment
    stoneTypeId := stoneTypeId
    stoneText := stoneText
    materialCode := materialCode
    stoneCode := stoneText
    thickness := thickness
    googleEventId := googleEventId
    freeComment := freeComment
    hideMarker := hideMarker }

/-- The per-item derivation of `mapItemsToEvents` (part_002 lines
1917-2061), with the already-computed `isReclEver` flag passed in: the
required-transfer gate, the date-priority selection, and the event
construction. -/
def mapOne (env : Env) (isReclEver : Bool) (item : RawItem) : MapOne :=
  -- 1) карточка существует только если transferToShop заполнен
  let transferToShop := orNull item.transferToShop
  if !(truthyDate transferToShop) then .skipNoTransfer
  else
    let plannedInstall := orNull item.plannedInstall
    let assignedInstall := orNull item.assignedInstall
    let sysAssignedInstall := orNull item.sysAssignedInstall
    let installDone := orNull item.installDone
    let assignedAny := firstNonEmpty [assignedInstall, sysAssignedInstall]
    -- 2) дата события: installDone > assignedAny > plannedInstall
    let dateValue : Option String :=
      if truthyDate installDone then installDone
      else if truthyDate assignedAny then assignedAny
      else if truthyDate plannedInstall then plannedInstall
      else none
    match dateValue with
    | none => .skipNoPlannedNoAssigned
    | some dv =>
      if !(truthyDate (some dv)) then .skipNoStart
      else .ev (buildEvent env isReclEver item dv)

/-- Accumulator of the `mapItemsToEvents` loop. -/
structure MapAcc where
  events : List FcEvent := []
  skipped : Skipped := {}
  reclChanged : Bool := false
  recl : ReclStore := []
  deriving Repr, DecidableEq

/-- One iteration of the `mapItemsToEvents` loop (part_002 lines
1905-2062): reclamation-flag bookkeeping (lines 1906-1915, which runs
before any skip check) followed by the per-item derivation.  `nowIso`
models `new Date().toISOString()`. -/
def mapStep (env : Env) (nowIso : String) (acc : MapAcc) (item : RawItem) : MapAcc :=
  let idStr := toString item.id
  let stageId := jsTrim (item.stageId.getD "")
  let isReclNow := isReclStage stageId
  let seen := reclSeen acc.recl idStr
  let isReclEver := isReclNow || seen
  let recl' := if isReclNow && !seen then (idStr, ⟨nowIso, stageId⟩) :: acc.recl else acc.recl
  let reclChanged' := if isReclNow && !seen then true else acc.reclChanged
  match mapOne env isReclEver item with
  | .ev e =>
      { acc with events := acc.events ++ [e], recl := recl', reclChanged := reclChanged' }
  | .skipNoTransfer =>
      { acc with skipped := { acc.skipped with noTransferToShop := acc.skipped.noTransferToShop + 1 },
                 recl := recl', reclChanged := reclChanged' }
  | .skipNoPlannedNoAssigned =>
      { acc with skipped := { acc.skipped with noPlannedNoAssigned := acc.skipped.noPlannedNoAssigned + 1 },
                 recl := recl', reclChanged := reclChanged' }
  | .skipNoStart =>
      { acc with skipped := { acc.skipped with noStartDate := acc.skipped.noStartDate + 1 },
                 recl := recl', reclChanged := reclChanged' }

/-- `mapItemsToEvents(items)` (part_002 line 1900), threading the mutable
`reclSeenStore` through the loop. -/
def mapItemsToEvents (env : Env) (nowIso : String) (recl : ReclStore)
    (items : List RawItem) : MapAcc :=
  items.foldl (mapStep env nowIso) { recl := recl }

-- ===================== SNAPSHOT (part_002 lines 2067-2128) =====================

/-- Diagnostic `payload.meta` object.  The digest never reads it and no
claim depends on it; the fields written by the modelled code paths are
kept so the meta-update statements can be translated verbatim. -/
structure Meta where
  reason : String := ""
  builtAtIso : String := ""
  perfMs : Nat := 0
  bitrixItems : Nat := 0
  eventsOut : Nat := 0
  manualOut : Nat := 0
  skipped : Skipped := {}
  warm : Bool := false
  unchanged : Bool := false
  lastRebuildMs : Nat := 0
  patchedAt : Option String := none
  deriving Repr, DecidableEq

/-- The `payload.events` slot.  Refresh always writes a JS array
(`.arr`), but a snapshot loaded from a corrupted disk file can hold a
non-array truthy value (`loadSnapshotFromDisk` only checks
`snap.payload.events` for truthiness), which `patchSnapshotAssignedDate`
guards against with `Array.isArray`. -/
inductive EventsField where
  | arr (l : List FcEvent)
  | notArr
  deriving Repr, DecidableEq

/-- `payload?.events || []`-style read used by `snapshotDigest`; in every
modelled flow the digest is only computed on freshly built `.arr`
payloads. -/
def EventsField.toList : EventsField → List FcEvent
  | .arr l => l
  | .notArr => []

/-- The `payload` object of the snapshot. -/
structure Payload where
  version : Nat := 0
  meta : Meta := {}
  events : EventsField := .arr []
  deriving Repr, DecidableEq

/-- `eventsSnapshot` (part_002 line 2068). -/
structure Snapshot where
  version : Nat := 0
  builtAt : Nat := 0
  key : Option String := none
  payload : Payload := {}
  digest : Option String := none
  deriving Repr, DecidableEq

/-- The module-level mutable state the claims are about: `dataVersion`
(line 1177), `eventsSnapshot` (line 2068), `reclSeenStore` (line 1485)
and the poller's `lastTopUpdatedTime` (line 2299). -/
structure SysState where
  dataVersion : Nat := 0
  snapshot : Snapshot := {}
  reclSeen : ReclStore := []
  lastTopUpdatedTime : Option String := none
  deriving Repr, DecidableEq

/-- One `(id, start, color, done, isDone, hideMarker, otkDate, stageId)`
block fed to the hash in `snapshotDigest` (part_002 lines 2108-2126),
with the same `'|'` separators. -/
def eventDigestChunk (e : FcEvent) : String :=
  "|" ++ e.id ++
  "|" ++ e.start ++
  "|" ++ e.backgroundColor ++
  "|" ++ toString e.done ++
  "|" ++ toString e.isDone ++
  "|" ++ toString e.hideMarker ++
  "|" ++ (e.otkDate.getD "") ++
  "|" ++ e.stageId

/-- `snapshotDigest(payload)` (part_002 line 2104).  The SHA-1 is modelled
by its injective pre-image: the exact byte sequence the source feeds to
the hash (event count followed by the per-event chunks).  Two payloads get
the same digest exactly when the source hashes the same bytes. -/
def snapshotDigest (payload : Payload) : String :=
  toString payload.events.toList.length ++
    String.join (payload.events.toList.map eventDigestChunk)

-- ===================== REFRESH PASS (part_002 lines 2142-2218) =====================

/-- The commit/discard tail of a refresh pass (part_002 lines 2184-2205):
compare the rebuilt payload's digest with the live one; on a match only
refresh `builtAt` and diagnostics, on a mismatch stamp `dataVersion =
Date.now()` into the payload and replace the snapshot wholesale.  Returns
the new state and whether `broadcastVersion()` ran.  `now` models
`Date.now()`, `rebuildMs` models `Date.now() - t0`. -/
def tryCommitPayload (s : SysState) (payload : Payload) (reason : String)
    (rebuildMs : Nat) (now : Nat) : SysState × Bool :=
  let digest := snapshotDigest payload
  if s.snapshot.digest == some digest then
    ({ s with snapshot :=
        { s.snapshot with
            builtAt := now,
            payload :=
              { s.snapshot.payload with
                  meta := { s.snapshot.payload.meta with
                              lastRebuildMs := rebuildMs, reason := reason,
                              unchanged := true } } } },
     false)
  else
    let dv := now
    let payload' := { payload with version := dv }
    ({ s with
        dataVersion := dv,
        snapshot :=
          { version := dv, builtAt := now, key := none,
            payload := payload', digest := some digest } },
     true)

/-- The body of one refresh pass (part_002 lines 2145-2214): the upstream
pull (`loadAllSmartItems` plus the user-cache warmup, the only awaited
upstream interaction) is injected as an `Except`; the `catch` branch logs
and leaves every piece of state untouched.  On success the items are
derived, the updated reclamation store is kept, the manual events are
appended and the payload is committed through the digest gate. -/
def refreshPassBody (env : Env) (s : SysState) (pull : Except String (List RawItem))
    (reason : String) (now : Nat) (nowIso : String) (rebuildMs : Nat) :
    SysState × Bool :=
  match pull with
  | .error _ => (s, false)
  | .ok items =>
    let m := mapItemsToEvents env nowIso s.reclSeen items
    let s1 := { s with reclSeen := m.recl }
    let manualEvents := env.manualEvents
    let payload : Payload :=
      { version := s1.dataVersion,
        meta := { reason := reason, builtAtIso := nowIso, perfMs := rebuildMs,
                  bitrixItems := items.length, eventsOut := m.events.length,
                  manualOut := manualEvents.length, skipped := m.skipped },
        events := .arr (m.events ++ manualEvents) }
    tryCommitPayload s1 payload reason rebuildMs now

-- ===================== PATCH (part_002 lines 2221-2261) =====================

/-- Result of `patchSnapshotAssignedDate`: the new state, the returned
boolean, whether `broadcastVersion()` ran, and whether
`saveSnapshotToDisk()` was initiated. -/
structure PatchResult where
  state : SysState
  applied : Bool
  broadcast : Bool
  persisted : Bool
  deriving Repr, DecidableEq

/-- `patchSnapshotAssignedDate(idStr, value)` (part_002 line 2221),
statement by statement: bail out if the event list is not an array or the
id is not found; refuse if `isDone`/`hideMarker` mark the event closed;
otherwise overwrite `start`, recompute `allDay`, set
`assignedInstall`/`assignedAny`, bump `dataVersion`/`version`/`builtAt`,
refresh the meta, recompute the digest, persist and broadcast. -/
def patchSnapshotAssignedDate (s : SysState) (idStr : String) (value : String)
    (now : Nat) (nowIso : String) : PatchResult :=
  match s.snapshot.payload.events with
  | .notArr => { state := s, applied := false, broadcast := false, persisted := false }
  | .arr evs =>
    match evs.findIdx? (fun e => e.id == idStr) with
    | none => { state := s, applied := false, broadcast := false, persisted := false }
    | some idx =>
      match evs.get? idx with
      | none => { state := s, applied := false, broadcast := false, persisted := false }
      | some ev =>
        -- если системно выполнено — не патчим
        if ev.isDone == true || ev.hideMarker == true then
          { state := s, applied := false, broadcast := false, persisted := false }
        else
          let ev' := { ev with
            start := value,
            allDay := eventAllDayFromStart value,
            assignedInstall := some value,
            assignedAny := some value }
          let evs' := evs.set idx ev'
          let dv := now
          let payload' :=
            { s.snapshot.payload with
                version := dv,
                meta := { s.snapshot.payload.meta with
                            reason := "assigned_patch", patchedAt := some nowIso },
                events := .arr evs' }
          let snap' :=
            { s.snapshot with
                version := dv, builtAt := now,
                payload := payload',
                digest := some (snapshotDigest payload') }
          { state := { s with dataVersion := dv, snapshot := snap' },
            applied := true, broadcast := true, persisted := true }

-- ===================== POLLER (part_002 lines 2297-2322) =====================

/-- The single most-recently-updated record returned by the poller's
`crm.item.list` query (`order: {updatedTime: 'DESC'}`, first item). -/
structure TopItem where
  id : Nat := 0
  updatedTime : Option String := none
  stageId : Option String := none
  deriving Repr, DecidableEq

/-- Result of one poller tick: the new state, whether
`scheduleRefresh('bitrix_poll')` was called, and whether the next tick
was rescheduled (the `finally` branch). -/
structure PollResult where
  state : SysState
  scheduled : Bool
  rescheduled : Bool
  deriving Repr, DecidableEq

/-- One tick of `pollBitrixTopUpdate` (part_002 line 2301) with the
upstream query injected as an `Except`: extract the top record's
`updatedTime` (`top?.updatedTime ? String(...) : null`, so an empty
string counts as absent), schedule a refresh iff it is present, a
previous value exists and they differ, then remember it; failures are
swallowed; the `finally` always reschedules the next tick. -/
def pollTick (s : SysState) (fetch : Except String (Option TopItem)) : PollResult :=
  match fetch with
  | .error _ => { state := s, scheduled := false, rescheduled := true }
  | .ok top =>
    let ut : Option String := top.bind (fun t => orNull t.updatedTime)
    let sched :=
      match ut, s.lastTopUpdatedTime with
      | some u, some l => !(u == l)
      | _, _ => false
    let last' := match ut with | some u => some u | none => s.lastTopUpdatedTime
    { state := { s with lastTopUpdatedTime := last' }, scheduled := sched,
      rescheduled := true }

-- ===================== REFRESH COORDINATOR (part_002 lines 2130-2218) =====================

/-- Control skeleton of the refresh scheduler: `refreshInFlight`
(modelled as the number of running passes so that "at most one" is a
provable invariant, not a typing artifact), `refreshPending`,
`refreshTimer` (at most one timer: `scheduleRefresh` clears any existing
one), and a counter of passes started. -/
structure Coord where
  running : Nat := 0
  pending : Bool := false
  timer : Bool := false
  started : Nat := 0
  deriving Repr, DecidableEq

/-- Events driving the coordinator: a direct `refreshSnapshot` call, a
`scheduleRefresh` call (debounce timer set/reset), the debounce timer
firing (which calls `refreshSnapshot`), and a running pass reaching its
`finally` block. -/
inductive CoordEv where
  | trigger
  | schedule
  | timerFire
  | finish
  deriving Repr, DecidableEq

/-- The entry logic of `refreshSnapshot` (lines 2143-2145): if a pass is
in flight only record `refreshPending = true`, otherwise start a pass. -/
def coordEnter (c : Coord) : Coord :=
  if c.running > 0 then { c with pending := true }
  else { c with running := c.running + 1, started := c.started + 1 }

/-- Transition function of the coordinator skeleton.  `finish` is the
`finally` block (lines 2208-2214): clear `refreshInFlight`; if a trigger
arrived meanwhile, clear `refreshPending` and schedule exactly one
follow-up pass via `scheduleRefresh`. -/
def coordStep (c : Coord) : CoordEv → Coord
  | .trigger => coordEnter c
  | .schedule => { c with timer := true }
  | .timerFire =>
      if c.timer then coordEnter { c with timer := false } else c
  | .finish =>
      if c.running > 0 then
        if c.pending then
          { c with running := c.running - 1, pending := false, timer := true }
        else
          { c with running := c.running - 1 }
      else c

/-- `n` trigger arrivals in sequence. -/
def triggerN (n : Nat) (c : Coord) : Coord :=
  match n with
  | 0 => c
  | n + 1 => triggerN n (coordStep c .trigger)

-- ===================== SPEC-SIDE DEFINITIONS =====================

/-- Written from the spec's words for the date-priority claim: "the start
date is selected by a strict priority order — completion date first, else
the operator-assigned date, else the system-assigned date, else the
planned date — where the first present, non-empty candidate wins". -/
def specStartDate (item : RawItem) : Option String :=
  firstNonEmpty
    [item.installDone, item.assignedInstall, item.sysAssignedInstall, item.plannedInstall]

/-- Written from the spec's words: the scanned text "contains a
self-pickup keyword" (the keyword list of the business rules). -/
def hasPickupKeyword (scanText : String) : Bool :=
  let t := jsToLower scanText
  strContains t "самовывоз" ||
  strContains t "без монта" ||
  strContains t "безмонтаж" ||
  strContains t "без установки"

/-- Written from the spec's words for the color claim: "if the record was
ever in a reclamation stage, red; else if the quality-check (OTK) date is
absent or empty, dark gray; else if the concatenated title/stone-text/
comments contain a self-pickup keyword, purple; else stone-type code 8142
yields blue and codes 8144, 8146, 8270, 8272 yield green; else the fixed
default blue." -/
def specColor (reclEver : Bool) (otkDate : Option String) (scanText : String)
    (stoneCode : String) : String :=
  if reclEver then COLOR_RED
  else if !(truthyDate otkDate) then COLOR_GRAY_DARK
  else if hasPickupKeyword scanText then COLOR_PURPLE
  else if stoneCode == "8142" then COLOR_BLUE
  else if stoneCode == "8144" || stoneCode == "8146" ||
          stoneCode == "8270" || stoneCode == "8272" then COLOR_GREEN
  else COLOR_BLUE

-- ===================== HELPER LEMMAS =====================

lemma truthyDate_orNull (v : Option String) : truthyDate (orNull v) = truthyDate v := by
  cases v with
  | none => rfl
  | some s =>
    by_cases h : s = ""
    · subst h; decide
    · simp [orNull, truthyDate, h]

lemma trim_ne_empty {s : String} (h : (jsTrim s == "") = false) : s ≠ "" := by
  intro he
  subst he
  rw [show (jsTrim "" == "") = true from by decide] at h
  exact Bool.noConfusion h

lemma orNull_of_truthy {v : Option String} (h : truthyDate v = true) : orNull v = v := by
  cases v with
  | none => simp [truthyDate] at h
  | some s =>
    simp only [truthyDate, Bool.not_eq_true'] at h
    simp [orNull, trim_ne_empty h]

lemma firstNonEmpty_cons_truthy {a : Option String} (l : List (Option String))
    (h : truthyDate a = true) : firstNonEmpty (a :: l) = a := by
  cases a with
  | none => simp [truthyDate] at h
  | some s =>
    simp only [truthyDate, Bool.not_eq_true'] at h
    simp [firstNonEmpty, h]

lemma firstNonEmpty_cons_falsy {a : Option String} (l : List (Option String))
    (h : truthyDate a = false) : firstNonEmpty (a :: l) = firstNonEmpty l := by
  cases a with
  | none => rfl
  | some s =>
    simp only [truthyDate, Bool.not_eq_false'] at h
    simp only [firstNonEmpty, h, if_true]

lemma firstNonEmpty_truthy : ∀ (l : List (Option String)),
    firstNonEmpty l = none ∨ truthyDate (firstNonEmpty l) = true := by
  intro l
  induction l with
  | nil => exact Or.inl rfl
  | cons a l ih =>
    cases ha : truthyDate a with
    | true => rw [firstNonEmpty_cons_truthy l ha]; exact Or.inr ha
    | false => rw [firstNonEmpty_cons_falsy l ha]; exact ih

lemma firstNonEmpty_none_of_falsy {l : List (Option String)}
    (h : truthyDate (firstNonEmpty l) = false) : firstNonEmpty l = none := by
  rcases firstNonEmpty_truthy l with h0 | h0
  · exact h0
  · rw [h0] at h; exact absurd h (by simp)

lemma firstNonEmpty_orNull_cons (a : Option String) (l : List (Option String)) :
    firstNonEmpty (orNull a :: l) = firstNonEmpty (a :: l) := by
  cases ha : truthyDate a with
  | true =>
    rw [firstNonEmpty_cons_truthy l ha, orNull_of_truthy ha,
        firstNonEmpty_cons_truthy l ha]
  | false =>
    rw [firstNonEmpty_cons_falsy l ha,
        firstNonEmpty_cons_falsy l (by rw [truthyDate_orNull]; exact ha)]

lemma firstNonEmpty_map_orNull : ∀ (l : List (Option String)),
    firstNonEmpty (l.map orNull) = firstNonEmpty l := by
  intro l
  induction l with
  | nil => rfl
  | cons a l ih =>
    rw [List.map_cons, firstNonEmpty_orNull_cons]
    cases ha : truthyDate a with
    | true => rw [firstNonEmpty_cons_truthy _ ha, firstNonEmpty_cons_truthy _ ha]
    | false => rw [firstNonEmpty_cons_falsy _ ha, firstNonEmpty_cons_falsy _ ha, ih]

lemma firstNonEmpty_append (l l' : List (Option String)) :
    firstNonEmpty (l ++ l') =
      (match firstNonEmpty l with
       | some v => some v
       | none => firstNonEmpty l') := by
  induction l with
  | nil => rfl
  | cons a l ih =>
    cases ha : truthyDate a with
    | true =>
      rw [List.cons_append, firstNonEmpty_cons_truthy _ ha, firstNonEmpty_cons_truthy _ ha]
      cases a with
      | none => simp [truthyDate] at ha
      | some s => rfl
    | false =>
      rw [List.cons_append, firstNonEmpty_cons_falsy _ ha, firstNonEmpty_cons_falsy _ ha, ih]

/-- The source's date-priority chain (`installDone > assignedInstall >
sysAssignedInstall > plannedInstall`, through `assignedAny`) computes
exactly the spec-side `specStartDate`. -/
lemma dateValue_eq_specStartDate (item : RawItem) :
    (if truthyDate (orNull item.installDone) then orNull item.installDone
     else if truthyDate (firstNonEmpty [orNull item.assignedInstall, orNull item.sysAssignedInstall]) then
       firstNonEmpty [orNull item.assignedInstall, orNull item.sysAssignedInstall]
     else if truthyDate (orNull item.plannedInstall) then orNull item.plannedInstall
     else none) = specStartDate item := by
  have hmap : firstNonEmpty [orNull item.assignedInstall, orNull item.sysAssignedInstall] =
      firstNonEmpty [item.assignedInstall, item.sysAssignedInstall] :=
    firstNonEmpty_map_orNull [item.assignedInstall, item.sysAssignedInstall]
  unfold specStartDate
  rw [truthyDate_orNull, hmap]
  cases hI : truthyDate item.installDone with
  | true =>
    rw [if_pos rfl, orNull_of_truthy hI, firstNonEmpty_cons_truthy _ hI]
  | false =>
    rw [if_neg (by simp), firstNonEmpty_cons_falsy _ hI]
    have happ := firstNonEmpty_append [item.assignedInstall, item.sysAssignedInstall]
      [item.plannedInstall]
    cases hA : truthyDate (firstNonEmpty [item.assignedInstall, item.sysAssignedInstall]) with
    | true =>
      rw [if_pos rfl]
      rcases firstNonEmpty_truthy [item.assignedInstall, item.sysAssignedInstall] with h0 | _
      · rw [h0] at hA; simp [truthyDate] at hA
      · cases h1 : firstNonEmpty [item.assignedInstall, item.sysAssignedInstall] with
        | none => rw [h1] at hA; simp [truthyDate] at hA
        | some v =>
          have : ([item.assignedInstall, item.sysAssignedInstall] ++ [item.plannedInstall]) =
              [item.assignedInstall, item.sysAssignedInstall, item.plannedInstall] := rfl
          rw [this] at happ
          rw [happ, h1]
    | false =>
      rw [if_neg (by simp)]
      have h0 := firstNonEmpty_none_of_falsy hA
      have : ([item.assignedInstall, item.sysAssignedInstall] ++ [item.plannedInstall]) =
          [item.assignedInstall, item.sysAssignedInstall, item.plannedInstall] := rfl
      rw [this] at happ
      rw [happ, h0, truthyDate_orNull]
      cases hP : truthyDate item.plannedInstall with
      | true => rw [if_pos rfl, orNull_of_truthy hP, firstNonEmpty_cons_truthy _ hP]
      | false => rw [if_neg (by simp), firstNonEmpty_cons_falsy _ hP]; rfl

lemma specStartDate_truthy {item : RawItem} {dv : String}
    (h : specStartDate item = some dv) : truthyDate (some dv) = true := by
  rcases firstNonEmpty_truthy
      [item.installDone, item.assignedInstall, item.sysAssignedInstall, item.plannedInstall]
    with h0 | h0
  · rw [specStartDate] at h; rw [h] at h0; exact Option.noConfusion h0
  · rw [specStartDate] at h; rwa [h] at h0

lemma mapOne_no_transfer (env : Env) (r : Bool) (item : RawItem)
    (ht : truthyDate item.transferToShop = false) :
    mapOne env r item = .skipNoTransfer := by
  simp only [mapOne]
  rw [truthyDate_orNull, ht]
  rfl

lemma mapOne_ev_eq (env : Env) (r : Bool) (item : RawItem) (dv : String)
    (ht : truthyDate item.transferToShop = true)
    (hs : specStartDate item = some dv) :
    mapOne env r item = .ev (buildEvent env r item dv) := by
  simp only [mapOne]
  rw [truthyDate_orNull, ht]
  simp only [Bool.not_true, Bool.false_eq_true, if_false]
  rw [dateValue_eq_specStartDate, hs]
  simp only [specStartDate_truthy hs, Bool.not_true, Bool.false_eq_true, if_false]

lemma mapOne_no_date (env : Env) (r : Bool) (item : RawItem)
    (ht : truthyDate item.transferToShop = true)
    (hs : specStartDate item = none) :
    mapOne env r item = .skipNoPlannedNoAssigned := by
  simp only [mapOne]
  rw [truthyDate_orNull, ht]
  simp only [Bool.not_true, Bool.false_eq_true, if_false]
  rw [dateValue_eq_specStartDate, hs]

lemma mapOne_ev_inv {env : Env} {r : Bool} {item : RawItem} {e : FcEvent}
    (h : mapOne env r item = .ev e) :
    truthyDate item.transferToShop = true ∧
      ∃ dv, specStartDate item = some dv ∧ e = buildEvent env r item dv := by
  cases ht : truthyDate item.transferToShop with
  | false => rw [mapOne_no_transfer env r item ht] at h; exact MapOne.noConfusion h
  | true =>
    cases hs : specStartDate item with
    | none => rw [mapOne_no_date env r item ht hs] at h; exact MapOne.noConfusion h
    | some dv =>
      rw [mapOne_ev_eq env r item dv ht hs] at h
      exact ⟨rfl, dv, rfl, (MapOne.ev.injEq _ _ ▸ h).symm⟩

lemma mapStep_events (env : Env) (nowIso : String) (acc : MapAcc) (item : RawItem) :
    (mapStep env nowIso acc item).events =
      (match mapOne env
          (isReclStage (jsTrim (item.stageId.getD "")) || reclSeen acc.recl (toString item.id))
          item with
      | .ev e => acc.events ++ [e]
      | _ => acc.events) := by
  simp only [mapStep]
  cases mapOne env
      (isReclStage (jsTrim (item.stageId.getD "")) || reclSeen acc.recl (toString item.id))
      item <;> rfl

lemma mapStep_recl (env : Env) (nowIso : String) (acc : MapAcc) (item : RawItem) :
    (mapStep env nowIso acc item).recl =
      (if isReclStage (jsTrim (item.stageId.getD "")) && !(reclSeen acc.recl (toString item.id)) then
        (toString item.id, ⟨nowIso, jsTrim (item.stageId.getD "")⟩) :: acc.recl
      else acc.recl) := by
  simp only [mapStep]
  cases mapOne env
      (isReclStage (jsTrim (item.stageId.getD "")) || reclSeen acc.recl (toString item.id))
      item <;> rfl

-- ===================== CLAIM THEOREMS =====================

/-- **C1.**  The digest gate of a refresh commit (part_002 lines
2184-2205): if the rebuilt payload's digest equals the live snapshot's
digest, the commit is discarded — `version` and `dataVersion` and the
stored digest do not change and `broadcastVersion` does not run; if the
digests differ (an observably different payload) and the clock has
advanced past the previous version (versions are `Date.now()` stamps),
the committed snapshot's version strictly increases and a notification is
broadcast. -/
theorem C1_digest_gate :
    ∀ (s : SysState) (payload : Payload) (reason : String) (rebuildMs now : Nat),
      (s.snapshot.digest = some (snapshotDigest payload) →
         (tryCommitPayload s payload reason rebuildMs now).1.snapshot.version = s.snapshot.version ∧
         (tryCommitPayload s payload reason rebuildMs now).1.dataVersion = s.dataVersion ∧
         (tryCommitPayload s payload reason rebuildMs now).1.snapshot.digest = s.snapshot.digest ∧
         (tryCommitPayload s payload reason rebuildMs now).2 = false) ∧
      (s.snapshot.digest ≠ some (snapshotDigest payload) →
         s.snapshot.version < now →
         s.snapshot.version < (tryCommitPayload s payload reason rebuildMs now).1.snapshot.version ∧
         (tryCommitPayload s payload reason rebuildMs now).1.snapshot.version = now ∧
         (tryCommitPayload s payload reason rebuildMs now).2 = true) := by
  intro s payload reason rebuildMs now
  constructor
  · intro h
    have hb : (s.snapshot.digest == some (snapshotDigest payload)) = true := beq_iff_eq.mpr h
    simp [tryCommitPayload, hb]
  · intro h hv
    have hb : (s.snapshot.digest == some (snapshotDigest payload)) = false :=
      beq_eq_false_iff_ne.mpr h
    simp [tryCommitPayload, hb, hv]

def envW : Env := { doneStore := fun _ => false, comments := fun _ => "", manualEvents := [] }

def payW : Payload := { events := .arr [{ id := "1", start := "2024-01-01" }] }

def stW1 : SysState :=
  { dataVersion := 5, snapshot := { version := 5, digest := some (snapshotDigest payW) } }

def stW2 : SysState :=
  { dataVersion := 5, snapshot := { version := 5, digest := some "other" } }

/-- Witness for C1 at concrete states: an equal-digest commit is discarded,
a differing-digest commit strictly bumps the version. -/
theorem C1_digest_gate_witness :
    ((tryCommitPayload stW1 payW "r" 3 999).2 = false ∧
     (tryCommitPayload stW1 payW "r" 3 999).1.snapshot.version = 5) ∧
    ((tryCommitPayload stW2 payW "r" 3 999).2 = true ∧
     5 < (tryCommitPayload stW2 payW "r" 3 999).1.snapshot.version) := by
  have h1 := (C1_digest_gate stW1 payW "r" 3 999).1 rfl
  have h2 := (C1_digest_gate stW2 payW "r" 3 999).2 (by decide) (by decide)
  exact ⟨⟨h1.2.2.2, by rw [h1.1]; rfl⟩, ⟨h2.2.2, h2.1⟩⟩

/-- **C3.**  For an item whose transfer-to-shop date is non-empty, the
derived event's start date is `specStartDate`: the first present,
non-empty candidate in the strict priority order completion date
(`installDone`) > operator-assigned date (`assignedInstall`) >
system-assigned date (`sysAssignedInstall`) > planned date
(`plannedInstall`); when no candidate exists, no event is appended for the
item. -/
theorem C3_start_date_priority :
    ∀ (env : Env) (nowIso : String) (acc : MapAcc) (item : RawItem),
      truthyDate item.transferToShop = true →
      (∀ dv, specStartDate item = some dv →
         ∃ e, (mapStep env nowIso acc item).events = acc.events ++ [e] ∧ e.start = dv) ∧
      (specStartDate item = none →
         (mapStep env nowIso acc item).events = acc.events) := by
  intro env nowIso acc item ht
  constructor
  · intro dv hs
    rw [mapStep_events, mapOne_ev_eq env _ item dv ht hs]
    exact ⟨buildEvent env _ item dv, rfl, rfl⟩
  · intro hs
    rw [mapStep_events, mapOne_no_date env _ item ht hs]

def itemW3 : RawItem :=
  { id := 7, transferToShop := some "2024-01-01",
    assignedInstall := some "2024-02-05", plannedInstall := some "2024-01-20",
    stageId := some "normal" }

/-- Witness for C3: with no completion date, the operator-assigned date
wins over the planned date on a concrete item. -/
theorem C3_start_date_priority_witness :
    truthyDate itemW3.transferToShop = true ∧
    specStartDate itemW3 = some "2024-02-05" ∧
    ∃ e, (mapStep envW "NOW" {} itemW3).events = [] ++ [e] ∧ e.start = "2024-02-05" := by
  refine ⟨by decide, by decide, ?_⟩
  exact (C3_start_date_priority envW "NOW" {} itemW3 (by decide)).1 "2024-02-05" (by decide)

lemma specColor_orNull_otk (r : Bool) (o : Option String) (t c : String) :
    specColor r (orNull o) t c = specColor r o t c := by
  unfold specColor
  rw [truthyDate_orNull]

lemma pickColorByRules_eq_specColor (a : ColorArgs) :
    pickColorByRules a =
      specColor a.reclEver a.otkDate
        (joinTruthy [a.title, a.stoneText, a.installComment, a.extraComment])
        (jsTrim (a.stoneTypeId.getD "")) := by
  have hd : detectPickup a.title a.stoneText a.installComment a.extraComment =
      hasPickupKeyword (joinTruthy [a.title, a.stoneText, a.installComment, a.extraComment]) := rfl
  simp only [pickColorByRules, specColor, hd]
  cases hr : a.reclEver
  · simp only [Bool.false_eq_true, if_false]
    cases hot : truthyDate a.otkDate
    · simp
    · simp only [Bool.not_true, Bool.false_eq_true, if_false]
      cases hp : hasPickupKeyword (joinTruthy [a.title, a.stoneText, a.installComment, a.extraComment])
      · simp only [Bool.false_eq_true, if_false]
        cases h1 : (jsTrim (a.stoneTypeId.getD "") == "8142")
        · simp only [Bool.false_eq_true, if_false]
          cases h2 : (jsTrim (a.stoneTypeId.getD "") == "8270") <;>
            cases h3 : (jsTrim (a.stoneTypeId.getD "") == "8146") <;>
              simp [h2, h3]
        · simp
      · simp
  · simp

/-- **C4.**  The color of every derived event follows the spec's fixed
decision order (`specColor`): ever-in-reclamation red beats all; else a
missing/empty OTK date gives dark gray; else a self-pickup keyword in the
concatenated title/stone-text/comments gives purple; else stone code 8142
gives blue and 8144/8146/8270/8272 give green; else the default blue —
and `color`/`borderColor` always equal `backgroundColor`. -/
theorem C4_color_decision_order :
    ∀ (env : Env) (isReclEver : Bool) (item : RawItem) (e : FcEvent),
      mapOne env isReclEver item = .ev e →
      e.backgroundColor =
        specColor isReclEver item.otkDate
          (joinTruthy [e.title, e.stoneText, e.installComment, e.extraComment])
          (jsTrim (item.stoneTypeId.getD "")) ∧
      e.color = e.backgroundColor ∧ e.borderColor = e.backgroundColor := by
  intro env r item e h
  obtain ⟨ht, dv, hs, rfl⟩ := mapOne_ev_inv h
  refine ⟨?_, rfl, rfl⟩
  have hb : (buildEvent env r item dv).backgroundColor =
      pickColorByRules
        { reclEver := r, otkDate := orNull item.otkDate, stoneTypeId := item.stoneTypeId,
          title := (buildEvent env r item dv).title,
          stoneText := (buildEvent env r item dv).stoneText,
          installComment := (buildEvent env r item dv).installComment,
          extraComment := (buildEvent env r item dv).extraComment } := rfl
  rw [hb, pickColorByRules_eq_specColor]
  exact specColor_orNull_otk r item.otkDate _ _

def itemW4 : RawItem :=
  { id := 11, transferToShop := some "2024-01-01",
    assignedInstall := some "2024-02-02", otkDate := some "2024-01-05",
    installCommentRaw := ["Самовывоз клиентом"], stoneTypeId := some "8144" }

/-- Witness for C4: a quality-checked item whose comment holds a
self-pickup keyword comes out purple even though its stone code 8144 is in
the green set (keyword scan precedes the code lookup). -/
theorem C4_color_decision_order_witness :
    ∃ e, mapOne envW false itemW4 = .ev e ∧
      e.backgroundColor =
        specColor false itemW4.otkDate
          (joinTruthy [e.title, e.stoneText, e.installComment, e.extraComment])
          (jsTrim (itemW4.stoneTypeId.getD "")) ∧
      e.backgroundColor = COLOR_PURPLE := by
  have he : mapOne envW false itemW4 = .ev (buildEvent envW false itemW4 "2024-02-02") :=
    mapOne_ev_eq envW false itemW4 "2024-02-02" (by decide) (by decide)
  have h := C4_color_decision_order envW false itemW4 _ he
  exact ⟨_, he, h.1, by decide⟩

lemma reclSeen_cons {l : ReclStore} {id : String} (k : String) (v : ReclEntry)
    (h : reclSeen l id = true) : reclSeen ((k, v) :: l) id = true := by
  unfold reclSeen at h ⊢
  cases hk : (id == k)
  · simpa [List.lookup, hk] using h
  · simp [List.lookup, hk]

lemma reclSeen_cons_self (k : String) (v : ReclEntry) (l : ReclStore) :
    reclSeen ((k, v) :: l) k = true := by
  simp [reclSeen, List.lookup]

lemma mapStep_recl_mono (env : Env) (nowIso : String) (acc : MapAcc) (item : RawItem)
    (id : String) (h : reclSeen acc.recl id = true) :
    reclSeen (mapStep env nowIso acc item).recl id = true := by
  rw [mapStep_recl]
  split
  · exact reclSeen_cons _ _ h
  · exact h

lemma foldl_recl_mono (env : Env) (nowIso : String) :
    ∀ (items : List RawItem) (acc : MapAcc) (id : String),
      reclSeen acc.recl id = true →
      reclSeen ((items.foldl (mapStep env nowIso) acc).recl) id = true := by
  intro items
  induction items with
  | nil => intro acc id h; exact h
  | cons it items ih =>
    intro acc id h
    exact ih _ _ (mapStep_recl_mono env nowIso acc it id h)

/-- **C5.**  The reclamation-ever store is monotonic and decisive for the
red color: (i) every id present in `reclSeenStore` before a refresh is
still present after `mapItemsToEvents` (nothing is ever removed); (ii)
processing an item whose current stage is a reclamation stage records its
id; (iii) once an id is in the store, processing that item again — whatever
its current stage — yields either no event or an event colored red. -/
theorem C5_recl_flag_monotonic :
    ∀ (env : Env) (nowIso : String),
      (∀ (recl : ReclStore) (items : List RawItem) (id : String),
         reclSeen recl id = true →
         reclSeen (mapItemsToEvents env nowIso recl items).recl id = true) ∧
      (∀ (acc : MapAcc) (item : RawItem),
         isReclStage (jsTrim (item.stageId.getD "")) = true →
         reclSeen (mapStep env nowIso acc item).recl (toString item.id) = true) ∧
      (∀ (acc : MapAcc) (item : RawItem),
         reclSeen acc.recl (toString item.id) = true →
         (mapStep env nowIso acc item).events = acc.events ∨
         ∃ e, (mapStep env nowIso acc item).events = acc.events ++ [e] ∧
              e.backgroundColor = COLOR_RED) := by
  intro env nowIso
  refine ⟨?_, ?_, ?_⟩
  · intro recl items id h
    exact foldl_recl_mono env nowIso items { recl := recl } id h
  · intro acc item hstage
    rw [mapStep_recl]
    cases hseen : reclSeen acc.recl (toString item.id)
    · rw [if_pos (by simp [hstage])]
      exact reclSeen_cons_self _ _ _
    · rw [if_neg (by simp [hstage])]
      exact hseen
  · intro acc item hseen
    rw [mapStep_events]
    have hflag : (isReclStage (jsTrim (item.stageId.getD "")) ||
        reclSeen acc.recl (toString item.id)) = true := by
      rw [hseen]; simp
    rw [hflag]
    cases htr : truthyDate item.transferToShop
    · rw [mapOne_no_transfer env true item htr]
      exact Or.inl rfl
    · cases hsd : specStartDate item with
      | none =>
        rw [mapOne_no_date env true item htr hsd]
        exact Or.inl rfl
      | some dv =>
        rw [mapOne_ev_eq env true item dv htr hsd]
        exact Or.inr ⟨_, rfl, rfl⟩

def itemW5a : RawItem :=
  { id := 9, transferToShop := some "2024-01-01", otkDate := some "2024-01-10",
    assignedInstall := some "2024-02-02", stageId := some "DT141_14:UC_9ALF9C" }

def itemW5b : RawItem := { itemW5a with stageId := some "normal" }

def reclW : ReclStore := [("9", { seenAt := "t", stageId := "DT141_14:UC_9ALF9C" })]

/-- Witness for C5: id 9 recorded while in a reclamation stage stays in
the store across a refresh where its stage is back to normal, and its
event on that refresh is necessarily absent-or-red. -/
theorem C5_recl_flag_monotonic_witness :
    reclSeen (mapItemsToEvents envW "NOW" reclW [itemW5b]).recl "9" = true ∧
    reclSeen (mapStep envW "NOW" {} itemW5a).recl "9" = true ∧
    ((mapStep envW "NOW" { recl := reclW } itemW5b).events =
        ({ recl := reclW } : MapAcc).events ∨
     ∃ e, (mapStep envW "NOW" { recl := reclW } itemW5b).events =
        ({ recl := reclW } : MapAcc).events ++ [e] ∧ e.backgroundColor = COLOR_RED) := by
  have h := C5_recl_flag_monotonic envW "NOW"
  exact ⟨h.1 reclW [itemW5b] "9" (by decide),
         h.2.1 {} itemW5a (by decide),
         h.2.2 { recl := reclW } itemW5b (by decide)⟩

lemma coordStep_trigger_of_running (c : Coord) (h : c.running = 1) :
    coordStep c .trigger = { c with pending := true } := by
  simp [coordStep, coordEnter, h]

lemma pending_eta (c : Coord) (h : c.pending = true) : { c with pending := true } = c := by
  cases c
  simp_all

lemma triggerN_fixed : ∀ (n : Nat) (c : Coord), c.running = 1 → c.pending = true →
    triggerN n c = c := by
  intro n
  induction n with
  | zero => intro c _ _; rfl
  | succ m ih =>
    intro c h1 h2
    show triggerN m (coordStep c .trigger) = c
    rw [coordStep_trigger_of_running c h1, pending_eta c h2]
    exact ih c h1 h2

lemma triggerN_succ_running (m : Nat) (c : Coord) (h : c.running = 1) :
    triggerN (m + 1) c = { c with pending := true } := by
  show triggerN m (coordStep c .trigger) = _
  rw [coordStep_trigger_of_running c h]
  exact triggerN_fixed m _ (by simpa using h) rfl

lemma coordStep_running_le (c : Coord) (e : CoordEv) (h : c.running ≤ 1) :
    (coordStep c e).running ≤ 1 := by
  cases e with
  | trigger =>
    simp only [coordStep, coordEnter]
    split
    · simpa using h
    · simp_all
  | schedule => simpa using h
  | timerFire =>
    simp only [coordStep, coordEnter]
    split
    · split
      · simpa using h
      · simp_all
    · exact h
  | finish =>
    simp only [coordStep]
    split
    · split <;> simp <;> try omega
    · exact h

/-- **C2.**  Single-flight with coalescing (part_002 lines 2130-2218): from
a state with one pass running, any burst of `n ≥ 1` triggers only sets the
pending flag (no pass starts while one is in flight); when the running
pass finishes, exactly one follow-up timer is armed, its firing starts
exactly one additional pass (`started` grows by exactly one, not by `n`),
and after that pass finishes nothing further is owed.  Moreover the number
of in-flight passes never exceeds one along any event sequence. -/
theorem C2_single_flight_coalescing :
    (∀ (c : Coord) (n : Nat), 1 ≤ n → c.running = 1 →
       (triggerN n c).started = c.started ∧
       (triggerN n c).running = 1 ∧
       (triggerN n c).pending = true ∧
       (coordStep (triggerN n c) .finish).running = 0 ∧
       (coordStep (triggerN n c) .finish).started = c.started ∧
       (coordStep (triggerN n c) .finish).timer = true ∧
       (coordStep (coordStep (triggerN n c) .finish) .timerFire).started = c.started + 1 ∧
       (coordStep (coordStep (triggerN n c) .finish) .timerFire).running = 1 ∧
       (coordStep (coordStep (triggerN n c) .finish) .timerFire).pending = false ∧
       (coordStep (coordStep (coordStep (triggerN n c) .finish) .timerFire) .finish).started
         = c.started + 1 ∧
       (coordStep (coordStep (coordStep (triggerN n c) .finish) .timerFire) .finish).running = 0 ∧
       (coordStep (coordStep (coordStep (triggerN n c) .finish) .timerFire) .finish).timer
         = false ∧
       (coordStep (coordStep (coordStep (triggerN n c) .finish) .timerFire) .finish).pending
         = false) ∧
    (∀ (c : Coord) (evs : List CoordEv), c.running ≤ 1 →
       (evs.foldl coordStep c).running ≤ 1) := by
  constructor
  · intro c n hn hr
    obtain ⟨m, rfl⟩ : ∃ m, n = m + 1 := ⟨n - 1, by omega⟩
    rw [triggerN_succ_running m c hr]
    simp [coordStep, coordEnter, hr]
  · intro c evs
    induction evs generalizing c with
    | nil => intro h; exact h
    | cons e evs ih =>
      intro h
      exact ih _ (coordStep_running_le c e h)

def coordW : Coord := { running := 1 }

/-- Witness for C2: from one running pass, three triggers then a finish, a
timer fire and a final finish yield exactly one additional started pass. -/
theorem C2_single_flight_coalescing_witness :
    (triggerN 3 coordW).started = 0 ∧
    (coordStep (coordStep (triggerN 3 coordW) .finish) .timerFire).started = 1 ∧
    (coordStep (coordStep (coordStep (triggerN 3 coordW) .finish) .timerFire) .finish).started
      = 1 ∧
    (coordStep (coordStep (coordStep (triggerN 3 coordW) .finish) .timerFire) .finish).timer
      = false ∧
    ([CoordEv.trigger, .trigger, .finish, .timerFire].foldl coordStep coordW).running ≤ 1 := by
  have h := C2_single_flight_coalescing.1 coordW 3 (by decide) rfl
  obtain ⟨h1, _, _, _, _, _, h7, _, _, h10, _, h12, _⟩ := h
  have hinv := C2_single_flight_coalescing.2 coordW
    [CoordEv.trigger, .trigger, .finish, .timerFire] (by decide)
  exact ⟨h1, h7, h10, h12, hinv⟩

/-- **C6.**  A refresh pass whose upstream interaction throws leaves the
state (snapshot, version, digest, reclamation store) untouched and
broadcasts nothing; and the coordinator is left able to retry: after the
failed pass finishes, the next trigger starts a fresh pass. -/
theorem C6_refresh_error_aborts :
    (∀ (env : Env) (s : SysState) (reason : String) (now : Nat) (nowIso : String)
       (rebuildMs : Nat) (err : String),
       refreshPassBody env s (.error err) reason now nowIso rebuildMs = (s, false)) ∧
    (∀ (c : Coord), c.running = 1 → c.pending = false →
       (coordStep (coordStep c .finish) .trigger).started = c.started + 1 ∧
       (coordStep (coordStep c .finish) .trigger).running = 1) := by
  constructor
  · intro env s reason now nowIso rebuildMs err
    rfl
  · intro c h1 h2
    simp [coordStep, coordEnter, h1, h2]

/-- Witness for C6 at a concrete state and error. -/
theorem C6_refresh_error_aborts_witness :
    refreshPassBody envW stW1 (.error "network timeout") "r" 999 "ISO" 3 = (stW1, false) ∧
    (coordStep (coordStep coordW .finish) .trigger).started = 1 := by
  have h := C6_refresh_error_aborts
  exact ⟨h.1 envW stW1 "r" 999 "ISO" 3 "network timeout", (h.2 coordW rfl rfl).1⟩

/-- **C7.**  `patchSnapshotAssignedDate` on an event found by id: a closed
event (`isDone` or `hideMarker` set) is refused with no change at all; an
open event is patched in exactly the whitelisted fields (`start`, the
recomputed `allDay`, `assignedInstall`, `assignedAny`) while every other
event and field is kept, the version is set to `Date.now()` (a strict bump
whenever the clock advanced), the digest is recomputed for the new
payload, the snapshot is persisted and a notification is broadcast. -/
theorem C7_patch_assigned_date :
    ∀ (s : SysState) (idStr value : String) (now : Nat) (nowIso : String)
      (evs : List FcEvent) (idx : Nat) (e : FcEvent),
      s.snapshot.payload.events = .arr evs →
      evs.findIdx? (fun ev => ev.id == idStr) = some idx →
      evs.get? idx = some e →
      ((e.isDone = true ∨ e.hideMarker = true) →
         patchSnapshotAssignedDate s idStr value now nowIso =
           { state := s, applied := false, broadcast := false, persisted := false }) ∧
      (e.isDone = false → e.hideMarker = false → s.snapshot.version < now →
         (patchSnapshotAssignedDate s idStr value now nowIso).applied = true ∧
         (patchSnapshotAssignedDate s idStr value now nowIso).broadcast = true ∧
         (patchSnapshotAssignedDate s idStr value now nowIso).persisted = true ∧
         (patchSnapshotAssignedDate s idStr value now nowIso).state.snapshot.payload.events =
           .arr (evs.set idx
             { e with start := value, allDay := eventAllDayFromStart value,
                      assignedInstall := some value, assignedAny := some value }) ∧
         (patchSnapshotAssignedDate s idStr value now nowIso).state.dataVersion = now ∧
         (patchSnapshotAssignedDate s idStr value now nowIso).state.snapshot.version = now ∧
         s.snapshot.version <
           (patchSnapshotAssignedDate s idStr value now nowIso).state.snapshot.version ∧
         (patchSnapshotAssignedDate s idStr value now nowIso).state.snapshot.digest =
           some (snapshotDigest
             (patchSnapshotAssignedDate s idStr value now nowIso).state.snapshot.payload)) := by
  intro s idStr value now nowIso evs idx e h1 h2 h3
  constructor
  · intro hc
    have hcb : (e.isDone == true || e.hideMarker == true) = true := by
      rcases hc with h | h <;> simp [h]
    simp only [patchSnapshotAssignedDate, h1, h2, h3, hcb]
    rfl
  · intro hd hh hv
    have hcb : (e.isDone == true || e.hideMarker == true) = false := by
      simp [hd, hh]
    simp only [patchSnapshotAssignedDate, h1, h2, h3, hcb]
    simp [hv]

def evW7 : FcEvent := { id := "7", start := "2024-02-05" }

def stW7 : SysState :=
  { dataVersion := 100,
    snapshot := { version := 100,
                  payload := { version := 100, events := .arr [evW7] },
                  digest := some "d" } }

/-- Witness for C7: patching an open event replaces its date, recomputes
`allDay` (true for the date-only string) and bumps the version. -/
theorem C7_patch_assigned_date_witness :
    (patchSnapshotAssignedDate stW7 "7" "2024-03-01" 200 "ISO").applied = true ∧
    (patchSnapshotAssignedDate stW7 "7" "2024-03-01" 200 "ISO").broadcast = true ∧
    (patchSnapshotAssignedDate stW7 "7" "2024-03-01" 200 "ISO").state.snapshot.version = 200 ∧
    (patchSnapshotAssignedDate stW7 "7" "2024-03-01" 200 "ISO").state.snapshot.payload.events =
      .arr ([evW7].set 0
        { evW7 with start := "2024-03-01", allDay := eventAllDayFromStart "2024-03-01",
                    assignedInstall := some "2024-03-01", assignedAny := some "2024-03-01" }) ∧
    eventAllDayFromStart "2024-03-01" = true := by
  have h := (C7_patch_assigned_date stW7 "7" "2024-03-01" 200 "ISO" [evW7] 0 evW7
    rfl (by decide) rfl).2 rfl rfl (by decide)
  exact ⟨h.1, h.2.1, h.2.2.2.2.2.1, h.2.2.2.1, by decide⟩

/-- **C9.**  One poller tick (part_002 lines 2301-2322): it never touches
the snapshot, the data version or the reclamation store; it schedules a
refresh exactly when the fetched top-record modification timestamp is
present, a previously observed one exists and the two differ; and the next
tick is rescheduled both on success and on failure (the loop never
stops). -/
theorem C9_poller_tick :
    ∀ (s : SysState) (top : Option TopItem) (err : String),
      (pollTick s (.error err)).state = s ∧
      (pollTick s (.error err)).scheduled = false ∧
      (pollTick s (.error err)).rescheduled = true ∧
      (pollTick s (.ok top)).state.snapshot = s.snapshot ∧
      (pollTick s (.ok top)).state.dataVersion = s.dataVersion ∧
      (pollTick s (.ok top)).state.reclSeen = s.reclSeen ∧
      (pollTick s (.ok top)).rescheduled = true ∧
      ((pollTick s (.ok top)).scheduled = true ↔
        ∃ u l, top.bind (fun t => orNull t.updatedTime) = some u ∧
               s.lastTopUpdatedTime = some l ∧ u ≠ l) := by
  intro s top err
  refine ⟨rfl, rfl, rfl, rfl, rfl, rfl, rfl, ?_⟩
  simp only [pollTick]
  cases hu : top.bind (fun t => orNull t.updatedTime) with
  | none => simp [hu]
  | some u =>
    cases hl : s.lastTopUpdatedTime with
    | none => simp [hu, hl]
    | some l => simp [hu, hl]

lemma findIdx?_none_of_all {α : Type} (p : α → Bool) (l : List α)
    (h : ∀ a ∈ l, p a = false) : l.findIdx? p = none := by
  rw [List.findIdx?_eq_none_iff]
  exact h

/-- **C10.**  `patchSnapshotAssignedDate` with an id matching no event, or
with a non-array event list, returns `false` and performs no effect: the
state (snapshot, event list, version, digest, global data version) is
exactly the old one, nothing is broadcast and nothing is written to
disk. -/
theorem C10_patch_unknown_id_noop :
    ∀ (s : SysState) (idStr value : String) (now : Nat) (nowIso : String),
      (s.snapshot.payload.events = .notArr →
         patchSnapshotAssignedDate s idStr value now nowIso =
           { state := s, applied := false, broadcast := false, persisted := false }) ∧
      (∀ evs, s.snapshot.payload.events = .arr evs →
         (∀ e ∈ evs, (e.id == idStr) = false) →
         patchSnapshotAssignedDate s idStr value now nowIso =
           { state := s, applied := false, broadcast := false, persisted := false }) := by
  intro s idStr value now nowIso
  constructor
  · intro h1
    simp only [patchSnapshotAssignedDate, h1]
  · intro evs h1 h2
    have hf : evs.findIdx? (fun ev => ev.id == idStr) = none :=
      findIdx?_none_of_all _ _ h2
    simp only [patchSnapshotAssignedDate, h1, hf]

def stW10 : SysState :=
  { dataVersion := 100,
    snapshot := { version := 100,
                  payload := { version := 100, events := .arr [evW7] },
                  digest := some "d" } }

def stW10n : SysState := { stW10 with snapshot := { stW10.snapshot with payload := { stW10.snapshot.payload with events := .notArr } } }

/-- Witness for C10: a patch for an absent id, and a patch against a
non-array event list, both change nothing. -/
theorem C10_patch_unknown_id_noop_witness :
    patchSnapshotAssignedDate stW10 "99" "2024-03-01" 200 "ISO" =
      { state := stW10, applied := false, broadcast := false, persisted := false } ∧
    patchSnapshotAssignedDate stW10n "7" "2024-03-01" 200 "ISO" =
      { state := stW10n, applied := false, broadcast := false, persisted := false } := by
  have h := C10_patch_unknown_id_noop stW10 "99" "2024-03-01" 200 "ISO"
  have hn := C10_patch_unknown_id_noop stW10n "7" "2024-03-01" 200 "ISO"
  exact ⟨(h.2 [evW7] rfl (by decide)), hn.1 rfl⟩

/-- Start date of the produced event, when one was produced. -/
def MapOne.evStart : MapOne → Option String
  | .ev e => some e.start
  | _ => none

/-- `done` flag of the produced event, when one was produced. -/
def MapOne.evDone : MapOne → Option Bool
  | .ev e => some e.done
  | _ => none

def itemC8 : RawItem :=
  { id := 8, transferToShop := some "2024-01-01",
    installDone := some "2024-01-02", assignedInstall := some "2024-02-05",
    otkDate := some "2024-01-10", stageId := some "DT141_14:UC_1LC3F5" }

/-- **C8, counterexample.**  An item with a present, non-empty completion
date (`installDone = "2024-01-02"`) in the "install done" pipeline stage
(not the SUCCESS stage), no reclamation history and no operator done flag:
the start date is the completion date as claimed, but the derived event
has `done = false` — part_002 line 1938 derives `sysDone` from
`stageId === STAGE_SUCCESS`, not from the completion date (the
completion-date variant is commented out at line 1937). -/
theorem C8_counterexample :
    truthyDate itemC8.installDone = true ∧
    (mapOne envW false itemC8).evStart = some "2024-01-02" ∧
    (mapOne envW false itemC8).evDone = some false := by
  refine ⟨by decide, by decide, by decide⟩

/-- **C8, amended.**  For every item whose completion date is present and
non-empty, the derived event's start date equals the completion date even
when assigned/planned dates are also present; `done`, however, is not
implied by the completion date: it is true iff the item's stage is the
success stage, or — when the record was never in a reclamation stage — the
operator done-store flag is set (and `isDone` is exactly the success-stage
test). -/
theorem C8_amended_done_semantics :
    ∀ (env : Env) (isReclEver : Bool) (item : RawItem) (e : FcEvent),
      truthyDate item.installDone = true →
      mapOne env isReclEver item = .ev e →
      some e.start = item.installDone ∧
      e.isDone = (jsTrim (item.stageId.getD "") == STAGE_SUCCESS) ∧
      e.done = ((jsTrim (item.stageId.getD "") == STAGE_SUCCESS) ||
                (!isReclEver && env.doneStore (toString item.id))) := by
  intro env r item e hI h
  obtain ⟨ht, dv, hs, rfl⟩ := mapOne_ev_inv h
  have hsd : specStartDate item = item.installDone := by
    unfold specStartDate
    rw [firstNonEmpty_cons_truthy _ hI]
  have hdv : some dv = item.installDone := by rw [← hs, hsd]
  refine ⟨hdv, rfl, ?_⟩
  have hdone : (buildEvent env r item dv).done =
      (if (jsTrim (item.stageId.getD "") == STAGE_SUCCESS) then true
       else if r then false else env.doneStore (toString item.id)) := rfl
  rw [hdone]
  cases hsys : (jsTrim (item.stageId.getD "") == STAGE_SUCCESS) <;>
    cases r <;> simp [hsys]

/-- Witness for the amended C8 at the concrete item of the
counterexample. -/
theorem C8_amended_done_semantics_witness :
    ∃ e, mapOne envW false itemC8 = .ev e ∧ some e.start = itemC8.installDone ∧
      e.done = ((jsTrim (itemC8.stageId.getD "") == STAGE_SUCCESS) ||
                (!false && envW.doneStore (toString itemC8.id))) := by
  have he : mapOne envW false itemC8 = .ev (buildEvent envW false itemC8 "2024-01-02") :=
    mapOne_ev_eq envW false itemC8 "2024-01-02" (by decide) (by decide)
  have h := C8_amended_done_semantics envW false itemC8 _ (by decide) he
  exact ⟨_, he, h.1, h.2.2⟩

end B24
